import Mathlib

/-
Verification of the Rook bucket-provisioner fragment
(pkg/operator/ceph/csi/util.go: the csi helper functions and the bucket
lifecycle coordinator Provision / Grant / Revoke / Update together with the
quota reconciler updateAdditionalSettings / setAdditionalSettings and the
toleration normalizer getToleration).

The Go code is sequential orchestration over remote admin/data-plane APIs.
We embed each operation as a pure Lean function parameterized by the
responses of the remote collaborators (bucket-info lookup, user lookup,
policy fetch, call success flags) and returning the Go result together with
the ordered trace of remote calls the operation issues.  Machine integers
(int64) are modelled as Int: none of the embedded arithmetic can overflow
in the ranges the claims exercise.
-/

namespace Rook

/-- Errors of the bucket provisioner, abstracting the wrapped Go errors. -/
inductive GoError
  | configErr
  | notInitialized
  | userCreateErr
  | bucketCreateErr
  | agentErr
  | quotaErr
  | parseErr
  | noSuchUser
  | ownerNotFound
  | bucketInfoErr
  | getUserErr
  | policyFetchErr
  | policyPutErr
  | bucketNotFound
  | otherErr
  deriving DecidableEq, Repr

/-- Effect carried by a bucket policy statement (Allow / Deny). -/
inductive Effect
  | allow
  | deny
  deriving DecidableEq, Repr

/-- A bucket access-policy statement: SID, principal set, resource set,
effect and action set. -/
structure PolicyStatement where
  sid : String
  principals : List String
  resources : List String
  effect : Effect
  actions : List String
  deriving DecidableEq, Repr

/-- A bucket policy document: a list of statements. -/
structure BucketPolicy where
  statements : List PolicyStatement
  deriving DecidableEq, Repr

/-- Modelled from the spec: the policy statement builder
(cephObject.NewPolicyStatement, whose source lives outside this fragment) as
an explicit factory value.  A fresh statement is empty and allowing. -/
def NewPolicyStatement : PolicyStatement :=
  { sid := "", principals := [], resources := [], effect := Effect.allow, actions := [] }

/-- Modelled from the spec: builder step setting the statement id. -/
def PolicyStatement.WithSID (s : PolicyStatement) (sid : String) : PolicyStatement :=
  { s with sid := sid }

/-- Modelled from the spec: builder step appending a principal. -/
def PolicyStatement.ForPrincipals (s : PolicyStatement) (u : String) : PolicyStatement :=
  { s with principals := s.principals ++ [u] }

/-- Modelled from the spec: builder step appending the bucket resource. -/
def PolicyStatement.ForResources (s : PolicyStatement) (b : String) : PolicyStatement :=
  { s with resources := s.resources ++ [b] }

/-- Modelled from the spec: builder step appending the bucket sub-resources. -/
def PolicyStatement.ForSubResources (s : PolicyStatement) (b : String) : PolicyStatement :=
  { s with resources := s.resources ++ [b ++ "/*"] }

/-- Modelled from the spec: builder step setting the allow effect. -/
def PolicyStatement.Allows (s : PolicyStatement) : PolicyStatement :=
  { s with effect := Effect.allow }

/-- Modelled from the spec: builder step setting the deny effect. -/
def PolicyStatement.Denies (s : PolicyStatement) : PolicyStatement :=
  { s with effect := Effect.deny }

/-- Modelled from the spec: builder step setting the action set. -/
def PolicyStatement.Actions (s : PolicyStatement) (acts : List String) : PolicyStatement :=
  { s with actions := acts }

/-- Modelled from the spec: the fixed allowed-action set
(cephObject.AllowedActions, defined outside this fragment).  Its exact
contents do not influence any claim; only that a fixed set is used. -/
def AllowedActions : List String := ["s3:*"]

/-- Modelled from the spec: cephObject.NewBucketPolicy builds a policy
document holding the single given statement. -/
def NewBucketPolicy (s : PolicyStatement) : BucketPolicy := ⟨[s]⟩

/-- Modelled from the spec: adding a statement for a principal appends it to
the document (the merge path does not deduplicate). -/
def BucketPolicy.ModifyBucketPolicy (p : BucketPolicy) (s : PolicyStatement) : BucketPolicy :=
  ⟨p.statements ++ [s]⟩

/-- Modelled from the spec: dropping statements for a principal removes
every statement whose principal set contains exactly that principal. -/
def BucketPolicy.DropPolicyStatements (p : BucketPolicy) (principal : String) : BucketPolicy :=
  ⟨p.statements.filter (fun s => decide (s.principals ≠ [principal]))⟩

/-- Per-user quota specification sent to SetUserQuota; a `none` field is a
field left unset in the Go admin.QuotaSpec (nil pointer). -/
structure QuotaSpec where
  uid : String
  enabled : Option Bool := none
  maxObjects : Option Int := none
  maxSize : Option Int := none
  deriving DecidableEq, Repr

/-- The user's currently stored quota record as returned by GetUser
(the dereferenced UserQuota fields). -/
structure UserQuotaRec where
  enabled : Bool
  maxObjects : Int
  maxSize : Int
  deriving DecidableEq, Repr

/-- A radosgw user as returned by GetUser: credentials plus quota record. -/
structure ObjectUser where
  keys : List (String × String)
  userQuota : UserQuotaRec
  deriving DecidableEq, Repr

/-- Bucket metadata as returned by GetBucketInfo. -/
structure BucketInfo where
  owner : String
  deriving DecidableEq, Repr

/-- One remote admin/data-plane call issued by a lifecycle operation. -/
inductive Action
  | createUser (uid : String)
  | modifyUser (uid : String) (maxBuckets : Int)
  | getUser (uid : String)
  | getBucketInfo (bucket : String)
  | setUserQuota (q : QuotaSpec)
  | deleteUser (uid : String)
  | createBucket (bucket : String)
  | bucketExistsCheck (bucket : String)
  | getBucketPolicy (bucket : String)
  | putBucketPolicy (bucket : String) (policy : BucketPolicy)
  deriving DecidableEq, Repr

/-- Accumulate the decimal value of a digit list; fails on a non-digit. -/
def parseDigitsAux : List Char → Nat → Option Nat
  | [], acc => some acc
  | c :: cs, acc =>
    if c.isDigit then parseDigitsAux cs (acc * 10 + (c.toNat - 48)) else none

/-- Parse a nonempty all-digit character list to its decimal value. -/
def parseDigits : List Char → Option Nat
  | [] => none
  | c :: cs => parseDigitsAux (c :: cs) 0

/-- Model of Go strconv.Atoi on the inputs the provisioner feeds it: an
optional sign followed by a nonempty digit string; anything else fails. -/
def goAtoi (s : String) : Option Int :=
  match s.data with
  | '-' :: cs => (parseDigits cs).map (fun n => -(n : Int))
  | '+' :: cs => (parseDigits cs).map (fun n => (n : Int))
  | cs => (parseDigits cs).map (fun n => (n : Int))

/-- Split a character list into its leading digit run and the rest. -/
def splitDigits : List Char → List Char × List Char
  | [] => ([], [])
  | c :: cs =>
    if c.isDigit then
      let r := splitDigits cs
      (c :: r.1, r.2)
    else ([], c :: cs)

/-- Multiplier of a quantity suffix: binary (Ki..Ei) and decimal (k..E)
byte-quantity suffixes; the empty suffix is 1; anything else fails. -/
def suffixFactor : List Char → Option Int
  | [] => some 1
  | ['K', 'i'] => some 1024
  | ['M', 'i'] => some (1024 ^ 2)
  | ['G', 'i'] => some (1024 ^ 3)
  | ['T', 'i'] => some (1024 ^ 4)
  | ['P', 'i'] => some (1024 ^ 5)
  | ['E', 'i'] => some (1024 ^ 6)
  | ['k'] => some 1000
  | ['M'] => some (1000 ^ 2)
  | ['G'] => some (1000 ^ 3)
  | ['T'] => some (1000 ^ 4)
  | ['P'] => some (1000 ^ 5)
  | ['E'] => some (1000 ^ 6)
  | _ => none

/-- Modelled from the spec: the external quantity parser
(k8s resource.ParseQuantity, outside this repository) on the integral inputs
the quota path uses: max-size strings are human-readable byte quantities,
an optional sign, digits and an optional Ki/Mi/Gi-style suffix, converted
to an exact byte count; anything else is a parse failure. -/
def parseQuantity (s : String) : Option Int :=
  let core : List Char → Option Int := fun cs =>
    let dr := splitDigits cs
    match parseDigits dr.1, suffixFactor dr.2 with
    | some n, some f => some ((n : Int) * f)
    | _, _ => none
  match s.data with
  | '-' :: cs => (core cs).map (fun v => -v)
  | '+' :: cs => core cs
  | cs => core cs

/-- maxSizeToInt64: parse the max-size string to an exact byte count,
wrapping a parse failure into an error. -/
def maxSizeToInt64 (maxSize : String) : Except GoError Int :=
  match parseQuantity maxSize with
  | none => Except.error GoError.parseErr
  | some v => Except.ok v

/-- The quota update built in the enabled branch of
updateAdditionalSettings: enabled=true, carrying max-objects only when
requested and different from the stored value, and max-size likewise. -/
def enabledQuotaSpec (cephUserName maxObjects maxSize : String)
    (maxObjectsInt64 maxSizeInt64 : Int) (stored : UserQuotaRec) : QuotaSpec :=
  let q0 : QuotaSpec := { uid := cephUserName, enabled := some true }
  let q1 :=
    if maxObjects ≠ "" ∧ maxObjectsInt64 ≠ stored.maxObjects then
      { q0 with maxObjects := some maxObjectsInt64 }
    else q0
  if maxSize ≠ "" ∧ maxSizeInt64 ≠ stored.maxSize then
    { q1 with maxSize := some maxSizeInt64 }
  else q1

/-- updateAdditionalSettings: the quota reconciliation run on Update.
Parses the requested max-objects and max-size strings (empty means absent,
parse happens before any remote call), fetches the user's stored quota, and
either disables quota (stored quota enabled and both requests absent or
negative: a single enabled=false update) or sends one enabled=true update
carrying only the fields whose parsed value differs from the stored one. -/
def updateAdditionalSettings (cephUserName maxObjects maxSize : String)
    (getUserRes : Except GoError ObjectUser) (setQuotaOk : Bool) :
    Except GoError Unit × List Action :=
  let moParse : Except GoError Int :=
    if maxObjects = "" then Except.ok 0
    else
      match goAtoi maxObjects with
      | none => Except.error GoError.parseErr
      | some v => Except.ok v
  match moParse with
  | Except.error e => (Except.error e, [])
  | Except.ok maxObjectsInt64 =>
    let msParse : Except GoError Int :=
      if maxSize = "" then Except.ok 0 else maxSizeToInt64 maxSize
    match msParse with
    | Except.error e => (Except.error e, [])
    | Except.ok maxSizeInt64 =>
      match getUserRes with
      | Except.error _ => (Except.error GoError.getUserErr, [Action.getUser cephUserName])
      | Except.ok objectUser =>
        if objectUser.userQuota.enabled = true ∧
            (maxObjects = "" ∨ maxObjectsInt64 < 0) ∧
            (maxSize = "" ∨ maxSizeInt64 < 0) then
          let q : QuotaSpec := { uid := cephUserName, enabled := some false }
          (if setQuotaOk then Except.ok () else Except.error GoError.quotaErr,
           [Action.getUser cephUserName, Action.setUserQuota q])
        else
          let q2 := enabledQuotaSpec cephUserName maxObjects maxSize
                      maxObjectsInt64 maxSizeInt64 objectUser.userQuota
          (if setQuotaOk then Except.ok () else Except.error GoError.quotaErr,
           [Action.getUser cephUserName, Action.setUserQuota q2])

/-- Update: re-resolve state from the binding (initializeDeleteOrRevoke,
a pure configuration/credential resolution issuing no mutating call), then
run the quota reconciliation. -/
def Update (cephUserName maxObjects maxSize : String)
    (initRes : Except GoError Unit) (getUserRes : Except GoError ObjectUser)
    (setQuotaOk : Bool) : Except GoError Unit × List Action :=
  match initRes with
  | Except.error e => (Except.error e, [])
  | Except.ok _ => updateAdditionalSettings cephUserName maxObjects maxSize getUserRes setQuotaOk

/-- Outcome of a GetBucketPolicy data-plane call: a policy document, the
tolerated NoSuchBucketPolicy condition, or any other fetch error. -/
inductive PolicyFetch
  | found (p : BucketPolicy)
  | noPolicy
  | fetchErr
  deriving DecidableEq, Repr

/-- The deny statement Revoke builds for the owning user (the source's
builder chain ending in Denies with the fixed allowed-action set). -/
def revokeDenyStatement (cephUserName bucketName : String) : PolicyStatement :=
  (((((NewPolicyStatement.WithSID cephUserName).ForPrincipals
      cephUserName).ForResources bucketName).ForSubResources bucketName).Denies).Actions
    AllowedActions

/-- The allow statement Grant builds for the new user (the source's builder
chain ending in Allows with the fixed allowed-action set). -/
def grantAllowStatement (cephUserName bucketName : String) : PolicyStatement :=
  (((((NewPolicyStatement.WithSID cephUserName).ForPrincipals
      cephUserName).ForResources bucketName).ForSubResources bucketName).Allows).Actions
    AllowedActions

/-- The tail of Revoke once bucket info, owner, data-plane session and
policy (none when NoSuchBucketPolicy) are in hand: write a deny statement
and stop when the revoked user owns the bucket, otherwise drop the revoked
user's statements (when a policy exists) and fall through to the
best-effort user deletion (deleteOBCResourceLogError). -/
def revokeCore (cephUserName bucketName : String) (bucket : BucketInfo)
    (policyOpt : Option BucketPolicy) (putPolicyOk : Bool) :
    Except GoError Unit × List Action :=
  let base := [Action.getBucketInfo bucketName, Action.getUser bucket.owner,
               Action.getBucketPolicy bucketName]
  if bucket.owner = cephUserName then
    let statement := revokeDenyStatement cephUserName bucketName
    let policy :=
      match policyOpt with
      | none => NewBucketPolicy statement
      | some pol => pol.ModifyBucketPolicy statement
    (if putPolicyOk then Except.ok () else Except.error GoError.policyPutErr,
     base ++ [Action.putBucketPolicy bucketName policy])
  else
    match policyOpt with
    | some pol =>
      let policy := pol.DropPolicyStatements cephUserName
      if putPolicyOk then
        (Except.ok (),
         base ++ [Action.putBucketPolicy bucketName policy, Action.deleteUser cephUserName])
      else
        (Except.error GoError.policyPutErr,
         base ++ [Action.putBucketPolicy bucketName policy])
    | none => (Except.ok (), base ++ [Action.deleteUser cephUserName])

/-- Revoke: after resolving state from the binding, fetch bucket info (a
failure is logged and control falls through to user deletion), reject an
empty owner, look up the owner (a vanished owner account is a successful
no-op), open the data-plane session as the owner, fetch the policy
(tolerating NoSuchBucketPolicy as no policy) and run the policy edit and
best-effort user deletion of revokeCore.  The final user deletion is
deleteOBCResourceLogError, whose own failure is logged, never returned. -/
def Revoke (cephUserName bucketName : String)
    (getBucketInfoRes : Except GoError BucketInfo)
    (getUserRes : Except GoError ObjectUser)
    (s3AgentOk : Bool)
    (getPolicyRes : PolicyFetch)
    (putPolicyOk : Bool) : Except GoError Unit × List Action :=
  match getBucketInfoRes with
  | Except.error _ =>
    (Except.ok (), [Action.getBucketInfo bucketName, Action.deleteUser cephUserName])
  | Except.ok bucket =>
    if bucket.owner = "" then
      (Except.error GoError.ownerNotFound, [Action.getBucketInfo bucketName])
    else
      match getUserRes with
      | Except.error e =>
        if e = GoError.noSuchUser then
          (Except.ok (), [Action.getBucketInfo bucketName, Action.getUser bucket.owner])
        else
          (Except.error e, [Action.getBucketInfo bucketName, Action.getUser bucket.owner])
      | Except.ok _owner =>
        if s3AgentOk = false then
          (Except.error GoError.agentErr,
           [Action.getBucketInfo bucketName, Action.getUser bucket.owner])
        else
          match getPolicyRes with
          | PolicyFetch.fetchErr =>
            (Except.error GoError.policyFetchErr,
             [Action.getBucketInfo bucketName, Action.getUser bucket.owner,
              Action.getBucketPolicy bucketName])
          | PolicyFetch.noPolicy =>
            revokeCore cephUserName bucketName bucket none putPolicyOk
          | PolicyFetch.found pol =>
            revokeCore cephUserName bucketName bucket (some pol) putPolicyOk

/-- The max-size leg of setAdditionalSettings: parse and, when a max-size
was requested, send the MaxSize quota update. -/
def setSizeStep (cephUserName maxSize : String) (setSizeOk : Bool) (trace : List Action) :
    Except GoError Unit × List Action :=
  if maxSize = "" then (Except.ok (), trace)
  else
    match maxSizeToInt64 maxSize with
    | Except.error _ => (Except.error GoError.parseErr, trace)
    | Except.ok v =>
      let act := Action.setUserQuota { uid := cephUserName, maxSize := some v }
      (if setSizeOk then Except.ok () else Except.error GoError.quotaErr, trace ++ [act])

/-- setAdditionalSettings: the quota application run on Provision/Grant.
Nothing is sent when neither limit is requested; otherwise quota is enabled
and each requested limit is parsed and sent with its own SetUserQuota
call. -/
def setAdditionalSettings (cephUserName maxObjects maxSize : String)
    (enableOk setObjectsOk setSizeOk : Bool) : Except GoError Unit × List Action :=
  if maxObjects = "" ∧ maxSize = "" then (Except.ok (), [])
  else
    let enableAct := Action.setUserQuota { uid := cephUserName, enabled := some true }
    if enableOk = false then (Except.error GoError.quotaErr, [enableAct])
    else
      if maxObjects = "" then setSizeStep cephUserName maxSize setSizeOk [enableAct]
      else
        match goAtoi maxObjects with
        | none => (Except.error GoError.parseErr, [enableAct])
        | some v =>
          let objAct := Action.setUserQuota { uid := cephUserName, maxObjects := some v }
          if setObjectsOk = false then (Except.error GoError.quotaErr, [enableAct, objAct])
          else setSizeStep cephUserName maxSize setSizeOk [enableAct, objAct]

/-- The per-call provisioner state the composed binding draws from. -/
structure Provisioner where
  bucketName : String
  storeDomainName : String
  storePort : Int
  region : String
  cephUserName : String
  accessKeyID : String
  secretAccessKey : String
  additionalConfigData : List (String × String)
  deriving DecidableEq, Repr

/-- The composed bucket binding: endpoint, credentials and the additional
state carrying the owning ceph user. -/
structure ObjectBucket where
  bucketHost : String
  bucketPort : Int
  bucketName : String
  region : String
  additionalConfigData : List (String × String)
  accessKeyID : String
  secretAccessKey : String
  cephUserState : String
  deriving DecidableEq, Repr

/-- composeObjectBucket: build the binding from the provisioner state. -/
def composeObjectBucket (p : Provisioner) : ObjectBucket :=
  { bucketHost := p.storeDomainName
    bucketPort := p.storePort
    bucketName := p.bucketName
    region := p.region
    additionalConfigData := p.additionalConfigData
    accessKeyID := p.accessKeyID
    secretAccessKey := p.secretAccessKey
    cephUserState := p.cephUserName }

/-- Provision: resolve state, create the dedicated user, open the
data-plane session, create the bucket, constrain the user to one bucket
(max-buckets = 1), apply the requested quota and compose the binding.
Every failure after user creation runs the best-effort user cleanup
(deleteOBCResourceLogError, modelled from the spec as the user deletion
whose own failure is logged and discarded) and returns the original
error. -/
def Provision (p : Provisioner) (maxObjects maxSize : String)
    (initRes : Except GoError Unit)
    (createUserRes : Except GoError (String × String))
    (s3AgentOk createBucketOk : Bool)
    (modifyUserRes : Except GoError Unit)
    (enableOk setObjectsOk setSizeOk : Bool) :
    Except GoError ObjectBucket × List Action :=
  match initRes with
  | Except.error e => (Except.error e, [])
  | Except.ok _ =>
    match createUserRes with
    | Except.error _ =>
      (Except.error GoError.userCreateErr, [Action.createUser p.cephUserName])
    | Except.ok keys =>
      let p2 := { p with accessKeyID := keys.1, secretAccessKey := keys.2 }
      if s3AgentOk = false then
        (Except.error GoError.agentErr,
         [Action.createUser p.cephUserName, Action.deleteUser p.cephUserName])
      else if createBucketOk = false then
        (Except.error GoError.bucketCreateErr,
         [Action.createUser p.cephUserName, Action.createBucket p.bucketName,
          Action.deleteUser p.cephUserName])
      else
        match modifyUserRes with
        | Except.error e =>
          (Except.error e,
           [Action.createUser p.cephUserName, Action.createBucket p.bucketName,
            Action.modifyUser p.cephUserName 1, Action.deleteUser p.cephUserName])
        | Except.ok _ =>
          let base := [Action.createUser p.cephUserName, Action.createBucket p.bucketName,
                       Action.modifyUser p.cephUserName 1]
          let r := setAdditionalSettings p.cephUserName maxObjects maxSize
                     enableOk setObjectsOk setSizeOk
          match r.1 with
          | Except.error e =>
            (Except.error e, base ++ r.2 ++ [Action.deleteUser p.cephUserName])
          | Except.ok _ => (Except.ok (composeObjectBucket p2), base ++ r.2)

/-- The tail of Grant once the policy (none when NoSuchBucketPolicy) is in
hand: append the allow statement, write the policy back, apply the
requested quota and compose the binding; failures run the best-effort user
cleanup. -/
def grantPolicyStep (p2 : Provisioner) (maxObjects maxSize : String)
    (policyOpt : Option BucketPolicy) (putPolicyOk : Bool)
    (enableOk setObjectsOk setSizeOk : Bool) (trace : List Action) :
    Except GoError ObjectBucket × List Action :=
  let statement := grantAllowStatement p2.cephUserName p2.bucketName
  let policy :=
    match policyOpt with
    | none => NewBucketPolicy statement
    | some pol => pol.ModifyBucketPolicy statement
  let t5 := trace ++ [Action.putBucketPolicy p2.bucketName policy]
  if putPolicyOk = false then
    (Except.error GoError.policyPutErr, t5 ++ [Action.deleteUser p2.cephUserName])
  else
    let r := setAdditionalSettings p2.cephUserName maxObjects maxSize
               enableOk setObjectsOk setSizeOk
    match r.1 with
    | Except.error e => (Except.error e, t5 ++ r.2 ++ [Action.deleteUser p2.cephUserName])
    | Except.ok _ => (Except.ok (composeObjectBucket p2), t5 ++ r.2)

/-- Grant: resolve state, verify the bucket exists (failing with a
bucket-not-found error before any user or policy work), create the
dedicated user, forbid it from creating buckets (max-buckets = -1), look up
the bucket's owner and the owner's credentials, open the data-plane session
as the owner, fetch the policy (tolerating NoSuchBucketPolicy) and run
grantPolicyStep.  Failures from the max-buckets step onward run the
best-effort user cleanup. -/
def Grant (p : Provisioner) (maxObjects maxSize : String)
    (initRes : Except GoError Unit)
    (bucketFound : Bool)
    (createUserRes : Except GoError (String × String))
    (modifyUserRes : Except GoError Unit)
    (getBucketInfoRes : Except GoError BucketInfo)
    (getUserRes : Except GoError ObjectUser)
    (s3AgentOk : Bool)
    (getPolicyRes : PolicyFetch)
    (putPolicyOk : Bool)
    (enableOk setObjectsOk setSizeOk : Bool) :
    Except GoError ObjectBucket × List Action :=
  match initRes with
  | Except.error e => (Except.error e, [])
  | Except.ok _ =>
    if bucketFound = false then
      (Except.error GoError.bucketNotFound, [Action.bucketExistsCheck p.bucketName])
    else
      match createUserRes with
      | Except.error _ =>
        (Except.error GoError.userCreateErr,
         [Action.bucketExistsCheck p.bucketName, Action.createUser p.cephUserName])
      | Except.ok keys =>
        let p2 := { p with accessKeyID := keys.1, secretAccessKey := keys.2 }
        let t1 := [Action.bucketExistsCheck p.bucketName, Action.createUser p.cephUserName]
        match modifyUserRes with
        | Except.error e =>
          (Except.error e,
           t1 ++ [Action.modifyUser p.cephUserName (-1), Action.deleteUser p.cephUserName])
        | Except.ok _ =>
          let t2 := t1 ++ [Action.modifyUser p.cephUserName (-1)]
          match getBucketInfoRes with
          | Except.error _ =>
            (Except.error GoError.bucketInfoErr,
             t2 ++ [Action.getBucketInfo p.bucketName, Action.deleteUser p.cephUserName])
          | Except.ok bucket =>
            let t3 := t2 ++ [Action.getBucketInfo p.bucketName]
            match getUserRes with
            | Except.error _ =>
              (Except.error GoError.getUserErr,
               t3 ++ [Action.getUser bucket.owner, Action.deleteUser p.cephUserName])
            | Except.ok _owner =>
              let t4 := t3 ++ [Action.getUser bucket.owner]
              if s3AgentOk = false then
                (Except.error GoError.agentErr, t4 ++ [Action.deleteUser p.cephUserName])
              else
                let t5 := t4 ++ [Action.getBucketPolicy p.bucketName]
                match getPolicyRes with
                | PolicyFetch.fetchErr =>
                  (Except.error GoError.policyFetchErr,
                   t5 ++ [Action.deleteUser p.cephUserName])
                | PolicyFetch.noPolicy =>
                  grantPolicyStep p2 maxObjects maxSize none putPolicyOk
                    enableOk setObjectsOk setSizeOk t5
                | PolicyFetch.found pol =>
                  grantPolicyStep p2 maxObjects maxSize (some pol) putPolicyOk
                    enableOk setObjectsOk setSizeOk t5

/-- Toleration operator (corev1.TolerationOperator). -/
inductive TolerationOp
  | opExists
  | opEqual
  deriving DecidableEq, Repr

/-- A pod toleration: the fields the normalizer touches. -/
structure Toleration where
  key : String
  operator : TolerationOp
  value : String
  effect : String
  deriving DecidableEq, Repr

/-- The loop body of getToleration: an empty key forces operator Exists,
and operator Exists forces an empty value. -/
def normalizeToleration (t : Toleration) : Toleration :=
  let t1 := if t.key = "" then { t with operator := TolerationOp.opExists } else t
  if t1.operator = TolerationOp.opExists then { t1 with value := "" } else t1

/-- Outcome of reading the toleration operator setting. -/
inductive SettingRead
  | readErr
  | readOk (raw : String)
  deriving DecidableEq, Repr

/-- getToleration: read the setting (an error or an empty value returns the
caller-supplied defaults), parse it as a toleration list (a parse failure
returns the defaults) and normalize every parsed toleration. -/
def getToleration (readRes : SettingRead)
    (parsed : String → Option (List Toleration))
    (defaultTolerations : List Toleration) : List Toleration :=
  match readRes with
  | SettingRead.readErr => defaultTolerations
  | SettingRead.readOk raw =>
    if raw = "" then defaultTolerations
    else
      match parsed raw with
      | none => defaultTolerations
      | some tolerations => tolerations.map normalizeToleration

/-! ## Helper lemmas about the enabled-branch quota update -/

theorem enabledQuotaSpec_enabled (c mo ms : String) (vo vs : Int) (st : UserQuotaRec) :
    (enabledQuotaSpec c mo ms vo vs st).enabled = some true := by
  unfold enabledQuotaSpec
  split <;> split <;> rfl

theorem enabledQuotaSpec_maxObjects (c mo ms : String) (vo vs : Int) (st : UserQuotaRec) :
    (enabledQuotaSpec c mo ms vo vs st).maxObjects =
      if mo ≠ "" ∧ vo ≠ st.maxObjects then some vo else none := by
  unfold enabledQuotaSpec
  split <;> split <;> rfl

theorem enabledQuotaSpec_maxSize (c mo ms : String) (vo vs : Int) (st : UserQuotaRec) :
    (enabledQuotaSpec c mo ms vo vs st).maxSize =
      if ms ≠ "" ∧ vs ≠ st.maxSize then some vs else none := by
  unfold enabledQuotaSpec
  split
  · split <;> rfl
  · split <;> rfl

theorem updateAdditionalSettings_enabled_trace
    (cephUserName maxObjects maxSize : String)
    (getUserRes : Except GoError ObjectUser) (setQuotaOk : Bool)
    (u : ObjectUser) (vo vs : Int)
    (hu : getUserRes = Except.ok u)
    (hmo : (maxObjects = "" ∧ vo = 0) ∨ (maxObjects ≠ "" ∧ goAtoi maxObjects = some vo))
    (hms : (maxSize = "" ∧ vs = 0) ∨ (maxSize ≠ "" ∧ parseQuantity maxSize = some vs))
    (hbr : ¬(u.userQuota.enabled = true ∧ (maxObjects = "" ∨ vo < 0) ∧
             (maxSize = "" ∨ vs < 0))) :
    (updateAdditionalSettings cephUserName maxObjects maxSize getUserRes setQuotaOk).2
      = [Action.getUser cephUserName,
         Action.setUserQuota
           (enabledQuotaSpec cephUserName maxObjects maxSize vo vs u.userQuota)] := by
  subst hu
  unfold updateAdditionalSettings
  rcases hmo with ⟨hmoe, hvo⟩ | ⟨hmoe, hvo⟩ <;>
    rcases hms with ⟨hmse, hvs⟩ | ⟨hmse, hvs⟩
  · subst hmoe; subst hmse; subst hvo; subst hvs
    simp only [reduceIte]
    rw [if_neg]
    intro h
    exact hbr ⟨h.1, Or.inl rfl, Or.inl rfl⟩
  · subst hmoe; subst hvo
    simp only [reduceIte, if_neg hmse, maxSizeToInt64, hvs]
    rw [if_neg]
    intro h
    exact hbr ⟨h.1, Or.inl rfl, h.2.2⟩
  · subst hmse; subst hvs
    simp only [reduceIte, if_neg hmoe, hvo]
    rw [if_neg]
    intro h
    exact hbr ⟨h.1, h.2.1, Or.inl rfl⟩
  · simp only [if_neg hmoe, if_neg hmse, hvo, maxSizeToInt64, hvs]
    rw [if_neg]
    intro h
    exact hbr ⟨h.1, h.2.1, h.2.2⟩

/-! ## Claim theorems -/

/-- C2: whenever the stored quota is enabled and both the requested
max-objects and max-size are absent (empty) or parse to a negative value,
updateAdditionalSettings sends exactly one quota update, carrying
enabled=false and neither a max-objects nor a max-size field, and returns
successfully. -/
theorem updateAdditionalSettings_disable_single_update
    (cephUserName maxObjects maxSize : String)
    (getUserRes : Except GoError ObjectUser) (u : ObjectUser)
    (hu : getUserRes = Except.ok u)
    (hen : u.userQuota.enabled = true)
    (hmo : maxObjects = "" ∨ ∃ v, goAtoi maxObjects = some v ∧ v < 0)
    (hms : maxSize = "" ∨ ∃ v, parseQuantity maxSize = some v ∧ v < 0) :
    updateAdditionalSettings cephUserName maxObjects maxSize getUserRes true =
      (Except.ok (),
       [Action.getUser cephUserName,
        Action.setUserQuota { uid := cephUserName, enabled := some false }]) := by
  subst hu
  unfold updateAdditionalSettings
  by_cases hmoe : maxObjects = ""
  · by_cases hmse : maxSize = ""
    · simp [hmoe, hmse, hen]
    · rcases hms with hms | ⟨vs, hvs, hvs2⟩
      · exact absurd hms hmse
      · simp [hmoe, hmse, maxSizeToInt64, hvs, hen, hvs2]
  · rcases hmo with hmo | ⟨vo, hvo, hvo2⟩
    · exact absurd hmo hmoe
    · by_cases hmse : maxSize = ""
      · simp [hmoe, hmse, hvo, hen, hvo2]
      · rcases hms with hms | ⟨vs, hvs, hvs2⟩
        · exact absurd hms hmse
        · simp [hmoe, hmse, hvo, maxSizeToInt64, hvs, hen, hvo2, hvs2]

theorem updateAdditionalSettings_disable_single_update_witness :
    updateAdditionalSettings "u" "" ""
      (Except.ok { keys := [], userQuota := { enabled := true, maxObjects := 5, maxSize := 7 } })
      true =
      (Except.ok (),
       [Action.getUser "u", Action.setUserQuota { uid := "u", enabled := some false }]) :=
  updateAdditionalSettings_disable_single_update "u" "" "" _ _ rfl rfl
    (Or.inl rfl) (Or.inl rfl)

/-- C3: in the enabled branch the single quota update sent by
updateAdditionalSettings carries enabled=true, includes the max-objects
field only when a max-objects was requested and its parsed value differs
from the stored one (an unchanged or absent field is omitted), and likewise
for max-size. -/
theorem updateAdditionalSettings_omits_unchanged_fields
    (cephUserName maxObjects maxSize : String)
    (getUserRes : Except GoError ObjectUser) (setQuotaOk : Bool)
    (u : ObjectUser) (vo vs : Int)
    (hu : getUserRes = Except.ok u)
    (hmo : (maxObjects = "" ∧ vo = 0) ∨ (maxObjects ≠ "" ∧ goAtoi maxObjects = some vo))
    (hms : (maxSize = "" ∧ vs = 0) ∨ (maxSize ≠ "" ∧ parseQuantity maxSize = some vs))
    (hbr : ¬(u.userQuota.enabled = true ∧ (maxObjects = "" ∨ vo < 0) ∧
             (maxSize = "" ∨ vs < 0))) :
    ∃ q, (updateAdditionalSettings cephUserName maxObjects maxSize getUserRes setQuotaOk).2
        = [Action.getUser cephUserName, Action.setUserQuota q] ∧
      q.enabled = some true ∧
      (q.maxObjects = none ↔ (maxObjects = "" ∨ vo = u.userQuota.maxObjects)) ∧
      (∀ w, q.maxObjects = some w → w = vo ∧ vo ≠ u.userQuota.maxObjects) ∧
      (q.maxSize = none ↔ (maxSize = "" ∨ vs = u.userQuota.maxSize)) ∧
      (∀ w, q.maxSize = some w → w = vs ∧ vs ≠ u.userQuota.maxSize) := by
  refine ⟨enabledQuotaSpec cephUserName maxObjects maxSize vo vs u.userQuota,
    updateAdditionalSettings_enabled_trace cephUserName maxObjects maxSize getUserRes
      setQuotaOk u vo vs hu hmo hms hbr,
    enabledQuotaSpec_enabled cephUserName maxObjects maxSize vo vs u.userQuota,
    ?_, ?_, ?_, ?_⟩
  · rw [enabledQuotaSpec_maxObjects]
    split
    · rename_i h
      simp only [reduceCtorEq, false_iff]
      push_neg
      exact ⟨h.1, h.2⟩
    · rename_i h
      push_neg at h
      simp only [true_iff]
      by_cases hmoe : maxObjects = ""
      · exact Or.inl hmoe
      · exact Or.inr (h hmoe)
  · rw [enabledQuotaSpec_maxObjects]
    split
    · rename_i h
      intro w hw
      cases hw
      exact ⟨rfl, h.2⟩
    · intro w hw
      cases hw
  · rw [enabledQuotaSpec_maxSize]
    split
    · rename_i h
      simp only [reduceCtorEq, false_iff]
      push_neg
      exact ⟨h.1, h.2⟩
    · rename_i h
      push_neg at h
      simp only [true_iff]
      by_cases hmse : maxSize = ""
      · exact Or.inl hmse
      · exact Or.inr (h hmse)
  · rw [enabledQuotaSpec_maxSize]
    split
    · rename_i h
      intro w hw
      cases hw
      exact ⟨rfl, h.2⟩
    · intro w hw
      cases hw

theorem updateAdditionalSettings_omits_unchanged_fields_witness :
    ∃ q, (updateAdditionalSettings "u" "3" ""
        (Except.ok { keys := [],
                     userQuota := { enabled := false, maxObjects := 3, maxSize := 0 } })
        true).2
        = [Action.getUser "u", Action.setUserQuota q] ∧
      q.enabled = some true ∧
      (q.maxObjects = none ↔ (("3" : String) = "" ∨ (3 : Int) = 3)) ∧
      (∀ w, q.maxObjects = some w → w = 3 ∧ (3 : Int) ≠ 3) ∧
      (q.maxSize = none ↔ (("" : String) = "" ∨ (0 : Int) = 0)) ∧
      (∀ w, q.maxSize = some w → w = 0 ∧ (0 : Int) ≠ 0) :=
  updateAdditionalSettings_omits_unchanged_fields "u" "3" "" _ true
    { keys := [], userQuota := { enabled := false, maxObjects := 3, maxSize := 0 } }
    3 0 rfl (Or.inr ⟨by decide, rfl⟩) (Or.inl ⟨rfl, rfl⟩) (by simp)

/-- C7: the max-size parser converts the string 10Gi to exactly 10737418240
bytes, and on an unparseable max-size string such as abc the Update call
returns a parse error after issuing no remote call at all (in particular no
quota-API call). -/
theorem maxSize_parse_and_abort
    (cephUserName maxObjects : String) (getUserRes : Except GoError ObjectUser)
    (setQuotaOk : Bool)
    (hmo : maxObjects = "" ∨ ∃ v, goAtoi maxObjects = some v) :
    maxSizeToInt64 "10Gi" = Except.ok 10737418240 ∧
    Update cephUserName maxObjects "abc" (Except.ok ()) getUserRes setQuotaOk
      = (Except.error GoError.parseErr, []) := by
  refine ⟨rfl, ?_⟩
  unfold Update updateAdditionalSettings
  have habc : maxSizeToInt64 "abc" = Except.error GoError.parseErr := rfl
  rcases hmo with hmo | ⟨v, hv⟩
  · subst hmo
    simp [habc]
  · by_cases hmoe : maxObjects = ""
    · subst hmoe
      simp [habc]
    · simp [if_neg hmoe, hv, habc]

theorem maxSize_parse_and_abort_witness :
    maxSizeToInt64 "10Gi" = Except.ok 10737418240 ∧
    Update "u" "" "abc" (Except.ok ())
        (Except.ok { keys := [], userQuota := { enabled := true, maxObjects := 0, maxSize := 0 } })
        true
      = (Except.error GoError.parseErr, []) :=
  maxSize_parse_and_abort "u" "" _ true (Or.inl rfl)

theorem updateAdditionalSettings_trace_shape
    (c mo ms : String) (gu : Except GoError ObjectUser) (so : Bool) :
    (updateAdditionalSettings c mo ms gu so).2 = [] ∨
    (updateAdditionalSettings c mo ms gu so).2 = [Action.getUser c] ∨
    ∃ q, (updateAdditionalSettings c mo ms gu so).2
      = [Action.getUser c, Action.setUserQuota q] := by
  unfold updateAdditionalSettings
  dsimp only
  repeat' split
  all_goals dsimp only
  all_goals
    first
    | exact Or.inl rfl
    | exact Or.inr (Or.inl rfl)
    | exact Or.inr (Or.inr ⟨_, rfl⟩)

/-- C9: every remote call issued by Update is a quota operation, either the
user lookup or a quota write; Update never writes a bucket policy, never
creates or deletes a bucket and never creates or deletes a user. -/
theorem update_only_quota_operations
    (cephUserName maxObjects maxSize : String)
    (initRes : Except GoError Unit) (getUserRes : Except GoError ObjectUser)
    (setQuotaOk : Bool) :
    ∀ a ∈ (Update cephUserName maxObjects maxSize initRes getUserRes setQuotaOk).2,
      (∃ uid, a = Action.getUser uid) ∨ (∃ q, a = Action.setUserQuota q) := by
  intro a ha
  unfold Update at ha
  split at ha
  · simp at ha
  · rcases updateAdditionalSettings_trace_shape cephUserName maxObjects maxSize getUserRes
        setQuotaOk with h | h | ⟨q, h⟩ <;> rw [h] at ha
    · simp at ha
    · simp only [List.mem_singleton] at ha
      exact Or.inl ⟨_, ha⟩
    · simp only [List.mem_cons, List.not_mem_nil, or_false] at ha
      rcases ha with ha | ha
      · exact Or.inl ⟨_, ha⟩
      · exact Or.inr ⟨_, ha⟩

theorem update_only_quota_operations_witness :
    (∃ uid, Action.getUser "u" = Action.getUser uid) ∨
    (∃ q, Action.getUser "u" = Action.setUserQuota q) :=
  update_only_quota_operations "u" "" "" (Except.ok ())
    (Except.ok { keys := [], userQuota := { enabled := true, maxObjects := 0, maxSize := 0 } })
    true (Action.getUser "u") (by decide)

/-- C1: when the bucket's current owner equals the principal being revoked,
Revoke writes a policy containing a deny statement for that principal
(rather than removing an allow statement) and returns without attempting
to delete the owning user's account: no user deletion appears in the call
trace. -/
theorem revoke_owner_writes_deny_and_keeps_owner
    (cephUserName bucketName : String)
    (getBucketInfoRes : Except GoError BucketInfo)
    (getUserRes : Except GoError ObjectUser)
    (getPolicyRes : PolicyFetch) (putPolicyOk : Bool)
    (bucket : BucketInfo) (owner : ObjectUser)
    (hb : getBucketInfoRes = Except.ok bucket)
    (hown : bucket.owner = cephUserName)
    (hne : bucket.owner ≠ "")
    (hu : getUserRes = Except.ok owner)
    (hpf : getPolicyRes ≠ PolicyFetch.fetchErr) :
    (∃ pol, Action.putBucketPolicy bucketName pol ∈
        (Revoke cephUserName bucketName getBucketInfoRes getUserRes true getPolicyRes
          putPolicyOk).2 ∧
      ∃ s, s ∈ pol.statements ∧ s.principals = [cephUserName] ∧ s.effect = Effect.deny) ∧
    (∀ uid, Action.deleteUser uid ∉
        (Revoke cephUserName bucketName getBucketInfoRes getUserRes true getPolicyRes
          putPolicyOk).2) := by
  subst hb; subst hu
  unfold Revoke
  dsimp only
  rw [if_neg hne]
  cases getPolicyRes with
  | fetchErr => exact absurd rfl hpf
  | noPolicy =>
    simp only [reduceIte]
    unfold revokeCore
    rw [if_pos hown]
    constructor
    · refine ⟨NewBucketPolicy (revokeDenyStatement cephUserName bucketName), ?_,
        revokeDenyStatement cephUserName bucketName, ?_, rfl, rfl⟩
      · simp
      · simp [NewBucketPolicy]
    · intro uid
      simp
  | found pol =>
    simp only [reduceIte]
    unfold revokeCore
    rw [if_pos hown]
    constructor
    · refine ⟨pol.ModifyBucketPolicy (revokeDenyStatement cephUserName bucketName), ?_,
        revokeDenyStatement cephUserName bucketName, ?_, rfl, rfl⟩
      · simp
      · simp [BucketPolicy.ModifyBucketPolicy]
    · intro uid
      simp

theorem revoke_owner_writes_deny_and_keeps_owner_witness :
    (∃ pol, Action.putBucketPolicy "b" pol ∈
        (Revoke "u" "b" (Except.ok { owner := "u" })
          (Except.ok { keys := [("a", "s")],
                       userQuota := { enabled := true, maxObjects := 0, maxSize := 0 } })
          true PolicyFetch.noPolicy true).2 ∧
      ∃ s, s ∈ pol.statements ∧ s.principals = ["u"] ∧ s.effect = Effect.deny) ∧
    (∀ uid, Action.deleteUser uid ∉
        (Revoke "u" "b" (Except.ok { owner := "u" })
          (Except.ok { keys := [("a", "s")],
                       userQuota := { enabled := true, maxObjects := 0, maxSize := 0 } })
          true PolicyFetch.noPolicy true).2) :=
  revoke_owner_writes_deny_and_keeps_owner "u" "b" _ _ PolicyFetch.noPolicy true
    { owner := "u" } _ rfl rfl (by decide) rfl (by decide)

/-- C5: when the bucket's info cannot be fetched, Revoke skips all policy
work, still attempts the deletion of the revoked user and returns
success: the call trace is exactly the failed lookup followed by the user
deletion. -/
theorem revoke_missing_bucket_still_deletes_user
    (cephUserName bucketName : String) (e : GoError)
    (getBucketInfoRes : Except GoError BucketInfo)
    (getUserRes : Except GoError ObjectUser)
    (s3AgentOk : Bool) (getPolicyRes : PolicyFetch) (putPolicyOk : Bool)
    (hb : getBucketInfoRes = Except.error e) :
    Revoke cephUserName bucketName getBucketInfoRes getUserRes s3AgentOk getPolicyRes
        putPolicyOk
      = (Except.ok (), [Action.getBucketInfo bucketName, Action.deleteUser cephUserName]) := by
  subst hb
  rfl

theorem revoke_missing_bucket_still_deletes_user_witness :
    Revoke "u" "b" (Except.error GoError.bucketInfoErr)
        (Except.ok { keys := [], userQuota := { enabled := true, maxObjects := 0, maxSize := 0 } })
        true PolicyFetch.noPolicy true
      = (Except.ok (), [Action.getBucketInfo "b", Action.deleteUser "u"]) :=
  revoke_missing_bucket_still_deletes_user "u" "b" GoError.bucketInfoErr _ _ true
    PolicyFetch.noPolicy true rfl

/-- C6: when the bucket exists but the owner lookup fails because the owner
account no longer exists, Revoke returns success immediately as a no-op:
the call trace holds only the two lookups, no policy write and no user
deletion. -/
theorem revoke_missing_owner_noop_success
    (cephUserName bucketName : String)
    (getBucketInfoRes : Except GoError BucketInfo)
    (getUserRes : Except GoError ObjectUser)
    (s3AgentOk : Bool) (getPolicyRes : PolicyFetch) (putPolicyOk : Bool)
    (bucket : BucketInfo)
    (hb : getBucketInfoRes = Except.ok bucket)
    (hne : bucket.owner ≠ "")
    (hu : getUserRes = Except.error GoError.noSuchUser) :
    Revoke cephUserName bucketName getBucketInfoRes getUserRes s3AgentOk getPolicyRes
        putPolicyOk
      = (Except.ok (), [Action.getBucketInfo bucketName, Action.getUser bucket.owner]) := by
  subst hb; subst hu
  unfold Revoke
  dsimp only
  rw [if_neg hne]
  rfl

theorem revoke_missing_owner_noop_success_witness :
    Revoke "u" "b" (Except.ok { owner := "v" }) (Except.error GoError.noSuchUser)
        true PolicyFetch.noPolicy true
      = (Except.ok (), [Action.getBucketInfo "b", Action.getUser "v"]) :=
  revoke_missing_owner_noop_success "u" "b" _ _ true PolicyFetch.noPolicy true
    { owner := "v" } rfl (by decide) rfl

/-- C4: when the step constraining the new user to a single bucket
(ModifyUser with max-buckets = 1) fails during Provision, the user deletion
appears in the call trace before Provision returns, and the error Provision
returns is the original ModifyUser error, regardless of the outcome of the
best-effort cleanup (whose failure is only logged and never propagated). -/
theorem provision_modify_fail_cleanup_preserves_error
    (p : Provisioner) (maxObjects maxSize : String)
    (initRes : Except GoError Unit) (createUserRes : Except GoError (String × String))
    (modifyUserRes : Except GoError Unit)
    (enableOk setObjectsOk setSizeOk : Bool)
    (keys : String × String) (e : GoError)
    (hinit : initRes = Except.ok ())
    (hcu : createUserRes = Except.ok keys)
    (hmu : modifyUserRes = Except.error e) :
    (Provision p maxObjects maxSize initRes createUserRes true true modifyUserRes
        enableOk setObjectsOk setSizeOk).1 = Except.error e ∧
    Action.deleteUser p.cephUserName ∈
      (Provision p maxObjects maxSize initRes createUserRes true true modifyUserRes
        enableOk setObjectsOk setSizeOk).2 := by
  subst hinit; subst hcu; subst hmu
  constructor
  · rfl
  · simp [Provision]

theorem provision_modify_fail_cleanup_preserves_error_witness :
    (Provision { bucketName := "b", storeDomainName := "h", storePort := 80, region := "",
                 cephUserName := "u", accessKeyID := "", secretAccessKey := "",
                 additionalConfigData := [] } "" "" (Except.ok ())
        (Except.ok ("a", "s")) true true (Except.error GoError.quotaErr)
        true true true).1 = Except.error GoError.quotaErr ∧
    Action.deleteUser "u" ∈
      (Provision { bucketName := "b", storeDomainName := "h", storePort := 80, region := "",
                   cephUserName := "u", accessKeyID := "", secretAccessKey := "",
                   additionalConfigData := [] } "" "" (Except.ok ())
        (Except.ok ("a", "s")) true true (Except.error GoError.quotaErr)
        true true true).2 :=
  provision_modify_fail_cleanup_preserves_error _ "" "" _ _ _ true true true
    ("a", "s") GoError.quotaErr rfl rfl rfl

/-- C8: Grant on a bucket that does not exist fails with the
bucket-not-found error and issues no further call: the trace is exactly the
existence check, with no user creation and no policy modification. -/
theorem grant_missing_bucket_fails_early
    (p : Provisioner) (maxObjects maxSize : String)
    (initRes : Except GoError Unit)
    (createUserRes : Except GoError (String × String))
    (modifyUserRes : Except GoError Unit)
    (getBucketInfoRes : Except GoError BucketInfo)
    (getUserRes : Except GoError ObjectUser)
    (s3AgentOk : Bool) (getPolicyRes : PolicyFetch) (putPolicyOk : Bool)
    (enableOk setObjectsOk setSizeOk : Bool)
    (hinit : initRes = Except.ok ()) :
    Grant p maxObjects maxSize initRes false createUserRes modifyUserRes getBucketInfoRes
        getUserRes s3AgentOk getPolicyRes putPolicyOk enableOk setObjectsOk setSizeOk
      = (Except.error GoError.bucketNotFound, [Action.bucketExistsCheck p.bucketName]) := by
  subst hinit
  rfl

theorem grant_missing_bucket_fails_early_witness :
    Grant { bucketName := "b", storeDomainName := "h", storePort := 80, region := "",
            cephUserName := "u", accessKeyID := "", secretAccessKey := "",
            additionalConfigData := [] } "" "" (Except.ok ()) false
        (Except.ok ("a", "s")) (Except.ok ()) (Except.ok { owner := "v" })
        (Except.ok { keys := [], userQuota := { enabled := true, maxObjects := 0, maxSize := 0 } })
        true PolicyFetch.noPolicy true true true true
      = (Except.error GoError.bucketNotFound, [Action.bucketExistsCheck "b"]) :=
  grant_missing_bucket_fails_early _ "" "" _ _ _ _ _ true PolicyFetch.noPolicy true
    true true true rfl

theorem normalizeToleration_inv (t : Toleration) :
    ((normalizeToleration t).key = "" → (normalizeToleration t).operator = TolerationOp.opExists) ∧
    ((normalizeToleration t).operator = TolerationOp.opExists →
      (normalizeToleration t).value = "") := by
  unfold normalizeToleration
  by_cases hk : t.key = ""
  · simp [hk]
  · by_cases hop : t.operator = TolerationOp.opExists
    · simp [hk, hop]
    · simp [hk, hop]

/-- C10: every toleration in a successfully parsed list returned by
getToleration is normalized (an empty key implies operator Exists, and
operator Exists implies an empty value), and when the setting read fails,
is empty, or does not parse, the caller-supplied default tolerations are
returned unchanged. -/
theorem getToleration_normalization_and_defaults
    (readRes : SettingRead) (parsed : String → Option (List Toleration))
    (defaultTolerations : List Toleration) :
    (∀ raw ts, readRes = SettingRead.readOk raw → raw ≠ "" → parsed raw = some ts →
      ∀ t ∈ getToleration readRes parsed defaultTolerations,
        (t.key = "" → t.operator = TolerationOp.opExists) ∧
        (t.operator = TolerationOp.opExists → t.value = "")) ∧
    ((readRes = SettingRead.readErr ∨ readRes = SettingRead.readOk "" ∨
      ∃ raw, readRes = SettingRead.readOk raw ∧ parsed raw = none) →
      getToleration readRes parsed defaultTolerations = defaultTolerations) := by
  constructor
  · intro raw ts hr hne hp t ht
    subst hr
    unfold getToleration at ht
    dsimp only at ht
    rw [if_neg hne, hp] at ht
    rcases List.mem_map.mp ht with ⟨t0, _, rfl⟩
    exact normalizeToleration_inv t0
  · rintro (hr | hr | ⟨raw, hr, hp⟩)
    · subst hr; rfl
    · subst hr; rfl
    · subst hr
      unfold getToleration
      dsimp only
      by_cases hne : raw = ""
      · rw [if_pos hne]
      · rw [if_neg hne, hp]

theorem getToleration_normalization_and_defaults_witness :
    getToleration SettingRead.readErr (fun _ => none)
      [{ key := "k", operator := TolerationOp.opEqual, value := "v", effect := "NoSchedule" }]
      = [{ key := "k", operator := TolerationOp.opEqual, value := "v", effect := "NoSchedule" }] :=
  (getToleration_normalization_and_defaults SettingRead.readErr (fun _ => none)
    [{ key := "k", operator := TolerationOp.opEqual, value := "v", effect := "NoSchedule" }]).2
    (Or.inl rfl)

end Rook
